import Mathlib

/-! Insights endpoints: request-to-query orchestration.

A shallow embedding of `server/channels/api4/insights.go`.

Every handler of the Go file is a straight-line sequence of collaborator calls, each
followed by an early return on failure.  The embedding keeps that shape: a handler is a
function from an environment of collaborators (`Env`), the request context (`Context`) and
the HTTP request (`Request`) to a `Result` holding the final `c.Err`, the payload written to
the response, and the ordered log of the calls made while serving the request.  The log is
what the statements about "is never invoked" and "is invoked exactly once" are about.

Collaborators are read-only, so each is a function of its arguments.
-/

set_option autoImplicit false

namespace Insights

/-! ## Data model -/

/-- The `*model.AppError` stored in `c.Err`: the fields `model.NewAppError` is given in the
source (`where`, `id`, `details`, `status`; `params` is `nil` at every call site). -/
structure AppError where
  Where : String
  Id : String
  DetailedError : String
  StatusCode : Int
deriving DecidableEq, Repr

/-- The call `model.NewAppError(where, id, nil, details, status)`. -/
def NewAppError (loc id details : String) (status : Int) : AppError :=
  ⟨loc, id, details, status⟩

/-- The constant `http.StatusInternalServerError`. -/
def StatusInternalServerError : Int := 500

/-- A `*model.Permission`, identified by its id. -/
structure Permission where
  Id : String
deriving DecidableEq, Repr

/-- The permission `model.PermissionViewTeam`. -/
def PermissionViewTeam : Permission := ⟨"view_team"⟩

/-- The session returned by `c.AppContext.Session()`. -/
structure Session where
  Id : String
  UserId : String
deriving DecidableEq, Repr

/-- The request context `c.AppContext`. -/
structure AppContext where
  Session : Session
deriving DecidableEq, Repr

/-- The URL parameters `c.Params` the handlers read. -/
structure Params where
  TeamId : String
  TimeRange : String
  Page : Int
  PerPage : Int
deriving DecidableEq, Repr

/-- The handler context `c *Context`. -/
structure Context where
  AppContext : AppContext
  Params : Params
  Err : Option AppError
deriving DecidableEq, Repr

/-- The HTTP request `r`, reduced to its URL query. -/
structure Request where
  Query : List (String × String)
deriving DecidableEq, Repr

/-- The call `r.URL.Query().Get(key)`: the first value of the key, the empty string when absent. -/
def Request.QueryGet (r : Request) (key : String) : String :=
  (r.Query.lookup key).getD ""

structure Team where
  Id : String
deriving DecidableEq, Repr

/-- A `*time.Location`, identified by its name. -/
structure Location where
  Name : String
deriving DecidableEq, Repr

structure User where
  Id : String
  Timezone : Option String
deriving DecidableEq, Repr

/-- Modelled from the spec: `User.GetTimezoneLocation` is not under src/; the spec says the
stored timezone of the acting user is used, or UTC if unset. -/
def User.GetTimezoneLocation (u : User) : Location :=
  ⟨u.Timezone.getD "UTC"⟩

/-- A `*time.Time`; the handlers only read `UnixMilli()` from it. -/
structure Time where
  UnixMilli : Int
deriving DecidableEq, Repr

/-- The type `model.InsightsOpts`. -/
structure InsightsOpts where
  StartUnixMilli : Int
  Page : Int
  PerPage : Int
deriving DecidableEq, Repr

/-- The type `model.PostCountGrouping`. -/
inductive PostCountGrouping where
  | PostsByHour
  | PostsByDay
deriving DecidableEq, Repr

/-- A row of a ranked list other than a channel list: identifier and score, which the
handlers do not interpret. -/
structure RankedItem where
  ID : String
  Score : Int
deriving DecidableEq, Repr

/-- A ranked reaction, thread, direct-message or inactive-channel list. -/
structure RankedList where
  HasNext : Bool
  Items : List RankedItem
deriving DecidableEq, Repr

/-- The type `model.DurationPostCount`: a row of the counting collaborator. `Duration` is the start
of the bucket, in Unix milliseconds. -/
structure DurationPostCount where
  ChannelID : String
  Duration : Int
  PostCount : Int
deriving DecidableEq, Repr

/-- The type `model.ChannelPostCountByDuration`: channel identifier to its counts, one per bucket. -/
abbrev ChannelPostCountByDuration := List (String × List Int)

structure TopChannel where
  ID : String
  MessageCount : Int
deriving DecidableEq, Repr

/-- The type `model.TopChannelList`; `PostCountByDuration` is `none` for the Go `nil` map. -/
structure TopChannelList where
  HasNext : Bool
  Items : List TopChannel
  PostCountByDuration : Option ChannelPostCountByDuration
deriving DecidableEq, Repr

/-- The type `model.NewTeamMembersList`. -/
structure NewTeamMembersList where
  HasNext : Bool
  Items : List RankedItem
  TotalCount : Int
deriving DecidableEq, Repr

/-- What a handler hands to `json.NewEncoder(w).Encode`. -/
inductive Payload where
  | reactions (l : RankedList)
  | channels (l : TopChannelList)
  | threads (l : RankedList)
  | dms (l : RankedList)
  | inactiveChannels (l : RankedList)
  | newTeamMembers (l : NewTeamMembersList)
deriving DecidableEq, Repr

/-! ## The parts of package `model` the composer uses -/

/-- Modelled from the spec: the constant `model.TimeRangeToday` is not under src/. Only
its being different from the other two range symbols matters below. -/
def TimeRangeToday : String := "today"

/-- Modelled from the spec: the range symbol of the last seven days, not under src/. -/
def TimeRange7Day : String := "7_day"

/-- Modelled from the spec: the range symbol of the last 28 days, not under src/. -/
def TimeRange28Day : String := "28_day"

/-- Modelled from the spec: `TopChannelList.ChannelIDs` is not under src/; the spec says
channel results expose the list of their channel identifiers, in ranking order. -/
def TopChannelList.ChannelIDs (t : TopChannelList) : List String :=
  t.Items.map (fun item => item.ID)

/-- Modelled from the spec: `model.TimeRangeToNumberDays` is not under src/; the spec
gives the number of buckets implied by the range: 24 for Today, 7 for Last7Days, 28 for
Last28Days. An unrecognised symbol has no bucket. -/
def TimeRangeToNumberDays (timeRange : String) : Nat :=
  if timeRange = TimeRangeToday then 24
  else if timeRange = TimeRange7Day then 7
  else if timeRange = TimeRange28Day then 28
  else 0

/-- Milliseconds in an hour. -/
def hourMilli : Int := 3600000

/-- Milliseconds in a day. -/
def dayMilli : Int := 86400000

/-- Modelled from the spec: the unit by which bucket starts advance. The source hands the
densifier the bucket count only, and the spec has hourly buckets exactly for Today, whose
count is 24, and daily buckets otherwise. -/
def bucketUnitMilli (numBuckets : Nat) : Int :=
  if numBuckets = 24 then hourMilli else dayMilli

/-- Start of bucket number `i`, counted from the start instant. -/
def bucketStart (startTime : Time) (numBuckets i : Nat) : Int :=
  startTime.UnixMilli + (i : Int) * bucketUnitMilli numBuckets

/-- The row of a (channel, bucket) pair, when the sparse rows hold one. -/
def findRow (rows : List DurationPostCount) (channelID : String) (bucket : Int) :
    Option DurationPostCount :=
  rows.find? (fun row => decide (row.ChannelID = channelID ∧ row.Duration = bucket))

/-- The count of a (channel, bucket) pair: that of its row, 0 when there is none. -/
def bucketCount (rows : List DurationPostCount) (channelID : String) (bucket : Int) : Int :=
  match findRow rows channelID bucket with
  | some row => row.PostCount
  | none => 0

/-- Modelled from the spec: `model.ToDailyPostCountViewModel` is not under src/; the spec
says that for each channel identifier and each bucket index below the number of buckets a
count is emitted, 0 when the sparse rows have no entry for the pair, buckets starting at
the start instant and advancing by the unit of the granularity. -/
def ToDailyPostCountViewModel (rows : List DurationPostCount) (startTime : Time)
    (numDays : Nat) (channelIDs : List String) : ChannelPostCountByDuration :=
  channelIDs.map (fun channelID =>
    (channelID, (List.range numDays).map (fun i =>
      bucketCount rows channelID (bucketStart startTime numDays i))))

/-! ## Collaborators and the call log -/

/-- One entry of the call log, with the arguments of the call: the calls of the
collaborators and, for the channel routes, the call of the composer by the handler. -/
inductive Call where
  | minimumProfessionalLicense (c : Context)
  | rejectGuests (c : Context)
  | RequireTeamId (c : Context)
  | GetTeam (teamId : String)
  | SessionHasPermissionToTeam (session : Session) (teamId : String) (p : Permission)
  | GetUser (userId : String)
  | GetStartOfDayForTimeRange (timeRange : String) (location : Location)
  | GetTopReactionsForTeamSince (teamId userId : String) (opts : InsightsOpts)
  | GetTopReactionsForUserSince (userId teamId : String) (opts : InsightsOpts)
  | GetTopChannelsForTeamSince (ctx : AppContext) (teamId userId : String)
      (opts : InsightsOpts)
  | GetTopChannelsForUserSince (ctx : AppContext) (userId teamId : String)
      (opts : InsightsOpts)
  | GetTopThreadsForTeamSince (ctx : AppContext) (teamId userId : String)
      (opts : InsightsOpts)
  | GetTopThreadsForUserSince (ctx : AppContext) (teamId userId : String)
      (opts : InsightsOpts)
  | GetTopDMsForUserSince (userId : String) (opts : InsightsOpts)
  | GetTopInactiveChannelsForTeamSince (ctx : AppContext) (teamId userId : String)
      (opts : InsightsOpts)
  | GetTopInactiveChannelsForUserSince (ctx : AppContext) (teamId userId : String)
      (opts : InsightsOpts)
  | GetNewTeamMembersSince (ctx : AppContext) (teamId : String) (opts : InsightsOpts)
  | postCountByDurationViewModel (topChannelList : TopChannelList) (startTime : Time)
      (timeRange : String) (userID : Option String) (location : Location)
  | PostCountsByDuration (ctx : AppContext) (channelIDs : List String)
      (startUnixMilli : Int) (userID : Option String) (grouping : PostCountGrouping)
      (location : Location)
  | Encode (payload : Payload)
deriving DecidableEq, Repr

/-- The collaborators of the handlers: code that is not in `insights.go`. Each field gives
the result of the call of that name.

* `minimumProfessionalLicense`, `rejectGuests`: the error returned, `none` for `nil`;
* `RequireTeamId`: the value of `c.Err` after `c.RequireTeamId()`;
* `SetInvalidURLParam`, `SetPermissionError`: the error the call stores in `c.Err`;
* `Encode`: the text of the encoding error, `none` when encoding succeeds;
* `GetStartOfDayForTimeRange` reads the clock, so it is a collaborator too. -/
structure Env where
  minimumProfessionalLicense : Context → Option AppError
  rejectGuests : Context → Option AppError
  RequireTeamId : Context → Option AppError
  IsValidId : String → Bool
  SetInvalidURLParam : Context → String → AppError
  SetPermissionError : Context → Permission → AppError
  GetTeam : String → Except AppError Team
  SessionHasPermissionToTeam : Session → String → Permission → Bool
  GetUser : String → Except AppError User
  GetStartOfDayForTimeRange : String → Location → Except AppError Time
  GetTopReactionsForTeamSince : String → String → InsightsOpts → Except AppError RankedList
  GetTopReactionsForUserSince : String → String → InsightsOpts → Except AppError RankedList
  GetTopChannelsForTeamSince :
    AppContext → String → String → InsightsOpts → Except AppError TopChannelList
  GetTopChannelsForUserSince :
    AppContext → String → String → InsightsOpts → Except AppError TopChannelList
  GetTopThreadsForTeamSince :
    AppContext → String → String → InsightsOpts → Except AppError RankedList
  GetTopThreadsForUserSince :
    AppContext → String → String → InsightsOpts → Except AppError RankedList
  GetTopDMsForUserSince : String → InsightsOpts → Except AppError RankedList
  GetTopInactiveChannelsForTeamSince :
    AppContext → String → String → InsightsOpts → Except AppError RankedList
  GetTopInactiveChannelsForUserSince :
    AppContext → String → String → InsightsOpts → Except AppError RankedList
  GetNewTeamMembersSince :
    AppContext → String → InsightsOpts → Except AppError (NewTeamMembersList × Int)
  PostCountsByDuration : AppContext → List String → Int → Option String →
    PostCountGrouping → Location → Except AppError (List DurationPostCount)
  Encode : Payload → Option String

/-- What serving a request leaves behind: the final `c.Err`, the payload encoded to the
response (`none` when nothing was), and the calls made, in order. -/
structure Result where
  Err : Option AppError
  body : Option Payload
  calls : List Call
deriving DecidableEq, Repr

/-- The handler sets `c.Err` and returns. -/
def Result.fail (e : AppError) : Result := ⟨some e, none, []⟩

/-- Log a call, then go on. -/
def call (k : Call) (rest : Result) : Result :=
  { rest with calls := k :: rest.calls }

/-- Log the calls of a callee, then go on. -/
def calls (ks : List Call) (rest : Result) : Result :=
  { rest with calls := ks ++ rest.calls }

/-- The `json.NewEncoder(w).Encode(payload)` step that ends every handler; `err` is the
value of `c.Err` the handler leaves when encoding succeeds. -/
def encode (env : Env) (handler : String) (err : Option AppError) (payload : Payload) :
    Result :=
  call (.Encode payload) <|
  match env.Encode payload with
  | some text =>
    .fail (NewAppError handler "api.marshal_error" text StatusInternalServerError)
  | none => ⟨err, some payload, []⟩

/-- The pair `(model.ChannelPostCountByDuration, *model.AppError)` returned by the
composer, with the calls it made. -/
structure Composed where
  value : Option ChannelPostCountByDuration
  Err : Option AppError
  calls : List Call
deriving DecidableEq, Repr

/-! ## The duration aggregation composer -/

/-- The composer `postCountByDurationViewModel` (insights.go, lines 561-578). -/
def postCountByDurationViewModel (env : Env) (c : Context) (topChannelList : TopChannelList)
    (startTime : Time) (timeRange : String) (userID : Option String)
    (location : Location) : Composed :=
  if topChannelList.Items.length = 0 then
    ⟨none, none, []⟩
  else
    let channelIDs := topChannelList.ChannelIDs
    let grouping :=
      if timeRange = TimeRangeToday then PostCountGrouping.PostsByHour
      else PostCountGrouping.PostsByDay
    let logged := [Call.PostCountsByDuration c.AppContext channelIDs startTime.UnixMilli
      userID grouping location]
    match env.PostCountsByDuration c.AppContext channelIDs startTime.UnixMilli userID
        grouping location with
    | .error err => ⟨none, some err, logged⟩
    | .ok postCountsByDay =>
      ⟨some (ToDailyPostCountViewModel postCountsByDay startTime
          (TimeRangeToNumberDays timeRange) channelIDs), none, logged⟩

/-! ## The handlers -/

/-- The `InsightsOpts` every handler builds from the resolved start and `c.Params`. -/
def insightsOpts (c : Context) (startTime : Time) : InsightsOpts :=
  { StartUnixMilli := startTime.UnixMilli, Page := c.Params.Page, PerPage := c.Params.PerPage }

/-- Handler `getTopReactionsForTeamSince` (insights.go, lines 40-96). -/
def getTopReactionsForTeamSince (env : Env) (c : Context) : Result :=
  call (.minimumProfessionalLicense c) <|
  match env.minimumProfessionalLicense c with
  | some permissionErr => .fail permissionErr
  | none =>
  call (.rejectGuests c) <|
  match env.rejectGuests c with
  | some permissionErr => .fail permissionErr
  | none =>
  call (.RequireTeamId c) <|
  match env.RequireTeamId c with
  | some err => .fail err
  | none =>
  call (.GetTeam c.Params.TeamId) <|
  match env.GetTeam c.Params.TeamId with
  | .error appErr => .fail appErr
  | .ok team =>
  call (.SessionHasPermissionToTeam c.AppContext.Session team.Id PermissionViewTeam) <|
  if !env.SessionHasPermissionToTeam c.AppContext.Session team.Id PermissionViewTeam then
    .fail (env.SetPermissionError c PermissionViewTeam)
  else
  call (.GetUser c.AppContext.Session.UserId) <|
  match env.GetUser c.AppContext.Session.UserId with
  | .error appErr => .fail appErr
  | .ok user =>
  call (.GetStartOfDayForTimeRange c.Params.TimeRange user.GetTimezoneLocation) <|
  match env.GetStartOfDayForTimeRange c.Params.TimeRange user.GetTimezoneLocation with
  | .error appErr => .fail appErr
  | .ok startTime =>
  call (.GetTopReactionsForTeamSince c.Params.TeamId c.AppContext.Session.UserId
    (insightsOpts c startTime)) <|
  match env.GetTopReactionsForTeamSince c.Params.TeamId c.AppContext.Session.UserId
      (insightsOpts c startTime) with
  | .error appErr => .fail appErr
  | .ok topReactionList =>
  encode env "getTopReactionsForTeamSince" none (.reactions topReactionList)

/-- Handler `getTopReactionsForUserSince` (insights.go, lines 98-153). `c0` is the context on
entry, `c` the context once `c.Params.TeamId` is assigned, and `rest` the statements that
follow the `team_id` block. -/
def getTopReactionsForUserSince (env : Env) (c0 : Context) (r : Request) : Result :=
  call (.rejectGuests c0) <|
  match env.rejectGuests c0 with
  | some permissionErr => .fail permissionErr
  | none =>
  let c : Context := { c0 with Params := { c0.Params with TeamId := r.QueryGet "team_id" } }
  let rest : Result :=
    call (.GetUser c.AppContext.Session.UserId) <|
    match env.GetUser c.AppContext.Session.UserId with
    | .error appErr => .fail appErr
    | .ok user =>
    call (.GetStartOfDayForTimeRange c.Params.TimeRange user.GetTimezoneLocation) <|
    match env.GetStartOfDayForTimeRange c.Params.TimeRange user.GetTimezoneLocation with
    | .error appErr => .fail appErr
    | .ok startTime =>
    call (.GetTopReactionsForUserSince c.AppContext.Session.UserId c.Params.TeamId
      (insightsOpts c startTime)) <|
    match env.GetTopReactionsForUserSince c.AppContext.Session.UserId c.Params.TeamId
        (insightsOpts c startTime) with
    | .error appErr => .fail appErr
    | .ok topReactionList =>
    encode env "getTopReactionsForUserSince" c.Err (.reactions topReactionList)
  if c.Params.TeamId ≠ "" then
    if !env.IsValidId c.Params.TeamId then
      .fail (env.SetInvalidURLParam c "team_id")
    else
    call (.GetTeam c.Params.TeamId) <|
    match env.GetTeam c.Params.TeamId with
    | .error appErr => .fail appErr
    | .ok team =>
    call (.SessionHasPermissionToTeam c.AppContext.Session team.Id PermissionViewTeam) <|
    if !env.SessionHasPermissionToTeam c.AppContext.Session team.Id PermissionViewTeam then
      .fail (env.SetPermissionError c PermissionViewTeam)
    else rest
  else rest

/-- Handler `getTopChannelsForTeamSince` (insights.go, lines 157-219). -/
def getTopChannelsForTeamSince (env : Env) (c : Context) : Result :=
  call (.minimumProfessionalLicense c) <|
  match env.minimumProfessionalLicense c with
  | some permissionErr => .fail permissionErr
  | none =>
  call (.rejectGuests c) <|
  match env.rejectGuests c with
  | some permissionErr => .fail permissionErr
  | none =>
  call (.RequireTeamId c) <|
  match env.RequireTeamId c with
  | some err => .fail err
  | none =>
  call (.GetTeam c.Params.TeamId) <|
  match env.GetTeam c.Params.TeamId with
  | .error appErr => .fail appErr
  | .ok team =>
  call (.SessionHasPermissionToTeam c.AppContext.Session team.Id PermissionViewTeam) <|
  if !env.SessionHasPermissionToTeam c.AppContext.Session team.Id PermissionViewTeam then
    .fail (env.SetPermissionError c PermissionViewTeam)
  else
  call (.GetUser c.AppContext.Session.UserId) <|
  match env.GetUser c.AppContext.Session.UserId with
  | .error appErr => .fail appErr
  | .ok user =>
  let loc := user.GetTimezoneLocation
  call (.GetStartOfDayForTimeRange c.Params.TimeRange loc) <|
  match env.GetStartOfDayForTimeRange c.Params.TimeRange loc with
  | .error appErr => .fail appErr
  | .ok startTime =>
  call (.GetTopChannelsForTeamSince c.AppContext c.Params.TeamId c.AppContext.Session.UserId
    (insightsOpts c startTime)) <|
  match env.GetTopChannelsForTeamSince c.AppContext c.Params.TeamId
      c.AppContext.Session.UserId (insightsOpts c startTime) with
  | .error appErr => .fail appErr
  | .ok topChannels =>
  call (.postCountByDurationViewModel topChannels startTime c.Params.TimeRange none loc) <|
  let composed :=
    postCountByDurationViewModel env c topChannels startTime c.Params.TimeRange none loc
  calls composed.calls <|
  match composed.Err with
  | some appErr => .fail appErr
  | none =>
  encode env "getTopChannelsForTeamSince" none
    (.channels { topChannels with PostCountByDuration := composed.value })

/-- Handler `getTopChannelsForUserSince` (insights.go, lines 221-283). `c0` is the context on
entry, `c` the context once `c.Params.TeamId` is assigned, and `rest` the statements that
follow the `team_id` block. -/
def getTopChannelsForUserSince (env : Env) (c0 : Context) (r : Request) : Result :=
  call (.rejectGuests c0) <|
  match env.rejectGuests c0 with
  | some permissionErr => .fail permissionErr
  | none =>
  let c : Context := { c0 with Params := { c0.Params with TeamId := r.QueryGet "team_id" } }
  let rest : Result :=
    call (.GetUser c.AppContext.Session.UserId) <|
    match env.GetUser c.AppContext.Session.UserId with
    | .error appErr => .fail appErr
    | .ok user =>
    let loc := user.GetTimezoneLocation
    call (.GetStartOfDayForTimeRange c.Params.TimeRange loc) <|
    match env.GetStartOfDayForTimeRange c.Params.TimeRange loc with
    | .error appErr => .fail appErr
    | .ok startTime =>
    call (.GetTopChannelsForUserSince c.AppContext c.AppContext.Session.UserId
      c.Params.TeamId (insightsOpts c startTime)) <|
    match env.GetTopChannelsForUserSince c.AppContext c.AppContext.Session.UserId
        c.Params.TeamId (insightsOpts c startTime) with
    | .error appErr => .fail appErr
    | .ok topChannels =>
    call (.postCountByDurationViewModel topChannels startTime c.Params.TimeRange
      (some c.AppContext.Session.UserId) loc) <|
    let composed := postCountByDurationViewModel env c topChannels startTime
      c.Params.TimeRange (some c.AppContext.Session.UserId) loc
    calls composed.calls <|
    match composed.Err with
    | some appErr => .fail appErr
    | none =>
    encode env "getTopChannelsForUserSince" c.Err
      (.channels { topChannels with PostCountByDuration := composed.value })
  if c.Params.TeamId ≠ "" then
    if !env.IsValidId c.Params.TeamId then
      .fail (env.SetInvalidURLParam c "team_id")
    else
    call (.GetTeam c.Params.TeamId) <|
    match env.GetTeam c.Params.TeamId with
    | .error appErr => .fail appErr
    | .ok team =>
    call (.SessionHasPermissionToTeam c.AppContext.Session team.Id PermissionViewTeam) <|
    if !env.SessionHasPermissionToTeam c.AppContext.Session team.Id PermissionViewTeam then
      .fail (env.SetPermissionError c PermissionViewTeam)
    else rest
  else rest

/-- Handler `getTopThreadsForTeamSince` (insights.go, lines 286-342): the user lookup
comes before the permission check. -/
def getTopThreadsForTeamSince (env : Env) (c : Context) : Result :=
  call (.minimumProfessionalLicense c) <|
  match env.minimumProfessionalLicense c with
  | some permissionErr => .fail permissionErr
  | none =>
  call (.rejectGuests c) <|
  match env.rejectGuests c with
  | some permissionErr => .fail permissionErr
  | none =>
  call (.RequireTeamId c) <|
  match env.RequireTeamId c with
  | some err => .fail err
  | none =>
  call (.GetTeam c.Params.TeamId) <|
  match env.GetTeam c.Params.TeamId with
  | .error appErr => .fail appErr
  | .ok team =>
  call (.GetUser c.AppContext.Session.UserId) <|
  match env.GetUser c.AppContext.Session.UserId with
  | .error err => .fail err
  | .ok user =>
  call (.SessionHasPermissionToTeam c.AppContext.Session team.Id PermissionViewTeam) <|
  if !env.SessionHasPermissionToTeam c.AppContext.Session team.Id PermissionViewTeam then
    .fail (env.SetPermissionError c PermissionViewTeam)
  else
  call (.GetStartOfDayForTimeRange c.Params.TimeRange user.GetTimezoneLocation) <|
  match env.GetStartOfDayForTimeRange c.Params.TimeRange user.GetTimezoneLocation with
  | .error appErr => .fail appErr
  | .ok startTime =>
  call (.GetTopThreadsForTeamSince c.AppContext c.Params.TeamId c.AppContext.Session.UserId
    (insightsOpts c startTime)) <|
  match env.GetTopThreadsForTeamSince c.AppContext c.Params.TeamId
      c.AppContext.Session.UserId (insightsOpts c startTime) with
  | .error appErr => .fail appErr
  | .ok topThreads =>
  encode env "getTopThreadsForTeamSince" none (.threads topThreads)

/-- Handler `getTopThreadsForUserSince` (insights.go, lines 344-399): the user lookup
comes before the `team_id` block; `c0`, `c` and `rest` are as in the other user-scoped
handlers. -/
def getTopThreadsForUserSince (env : Env) (c0 : Context) (r : Request) : Result :=
  call (.rejectGuests c0) <|
  match env.rejectGuests c0 with
  | some permissionErr => .fail permissionErr
  | none =>
  let c : Context := { c0 with Params := { c0.Params with TeamId := r.QueryGet "team_id" } }
  call (.GetUser c.AppContext.Session.UserId) <|
  match env.GetUser c.AppContext.Session.UserId with
  | .error err => .fail err
  | .ok user =>
  let rest : Result :=
    call (.GetStartOfDayForTimeRange c.Params.TimeRange user.GetTimezoneLocation) <|
    match env.GetStartOfDayForTimeRange c.Params.TimeRange user.GetTimezoneLocation with
    | .error appErr => .fail appErr
    | .ok startTime =>
    call (.GetTopThreadsForUserSince c.AppContext c.Params.TeamId
      c.AppContext.Session.UserId (insightsOpts c startTime)) <|
    match env.GetTopThreadsForUserSince c.AppContext c.Params.TeamId
        c.AppContext.Session.UserId (insightsOpts c startTime) with
    | .error appErr => .fail appErr
    | .ok topThreads =>
    encode env "getTopThreadsForUserSince" c.Err (.threads topThreads)
  if c.Params.TeamId ≠ "" then
    if !env.IsValidId c.Params.TeamId then
      .fail (env.SetInvalidURLParam c "team_id")
    else
    call (.GetTeam c.Params.TeamId) <|
    match env.GetTeam c.Params.TeamId with
    | .error teamErr => .fail teamErr
    | .ok team =>
    call (.SessionHasPermissionToTeam c.AppContext.Session team.Id PermissionViewTeam) <|
    if !env.SessionHasPermissionToTeam c.AppContext.Session team.Id PermissionViewTeam then
      .fail (env.SetPermissionError c PermissionViewTeam)
    else rest
  else rest

/-- Handler `getTopDMsForUserSince` (insights.go, lines 402-437). -/
def getTopDMsForUserSince (env : Env) (c : Context) : Result :=
  call (.rejectGuests c) <|
  match env.rejectGuests c with
  | some permissionErr => .fail permissionErr
  | none =>
  call (.GetUser c.AppContext.Session.UserId) <|
  match env.GetUser c.AppContext.Session.UserId with
  | .error err => .fail err
  | .ok user =>
  call (.GetStartOfDayForTimeRange c.Params.TimeRange user.GetTimezoneLocation) <|
  match env.GetStartOfDayForTimeRange c.Params.TimeRange user.GetTimezoneLocation with
  | .error appErr => .fail appErr
  | .ok startTime =>
  call (.GetTopDMsForUserSince user.Id (insightsOpts c startTime)) <|
  match env.GetTopDMsForUserSince user.Id (insightsOpts c startTime) with
  | .error err => .fail err
  | .ok topDMs =>
  encode env "getTopDMsForUserSince" c.Err (.dms topDMs)

/-- Handler `getTopInactiveChannelsForTeamSince` (insights.go, lines 441-497). -/
def getTopInactiveChannelsForTeamSince (env : Env) (c : Context) : Result :=
  call (.minimumProfessionalLicense c) <|
  match env.minimumProfessionalLicense c with
  | some permissionErr => .fail permissionErr
  | none =>
  call (.rejectGuests c) <|
  match env.rejectGuests c with
  | some permissionErr => .fail permissionErr
  | none =>
  call (.RequireTeamId c) <|
  match env.RequireTeamId c with
  | some err => .fail err
  | none =>
  call (.GetTeam c.Params.TeamId) <|
  match env.GetTeam c.Params.TeamId with
  | .error err => .fail err
  | .ok team =>
  call (.SessionHasPermissionToTeam c.AppContext.Session team.Id PermissionViewTeam) <|
  if !env.SessionHasPermissionToTeam c.AppContext.Session team.Id PermissionViewTeam then
    .fail (env.SetPermissionError c PermissionViewTeam)
  else
  call (.GetUser c.AppContext.Session.UserId) <|
  match env.GetUser c.AppContext.Session.UserId with
  | .error err => .fail err
  | .ok user =>
  let loc := user.GetTimezoneLocation
  call (.GetStartOfDayForTimeRange c.Params.TimeRange loc) <|
  match env.GetStartOfDayForTimeRange c.Params.TimeRange loc with
  | .error appErr => .fail appErr
  | .ok startTime =>
  call (.GetTopInactiveChannelsForTeamSince c.AppContext c.Params.TeamId
    c.AppContext.Session.UserId (insightsOpts c startTime)) <|
  match env.GetTopInactiveChannelsForTeamSince c.AppContext c.Params.TeamId
      c.AppContext.Session.UserId (insightsOpts c startTime) with
  | .error err => .fail err
  | .ok topChannels =>
  encode env "getTopInactiveChannelsForTeamSince" none (.inactiveChannels topChannels)

/-- Handler `getTopInactiveChannelsForUserSince` (insights.go, lines 501-558). `c0` is the context on
entry, `c` the context once `c.Params.TeamId` is assigned, and `rest` the statements that
follow the `team_id` block. -/
def getTopInactiveChannelsForUserSince (env : Env) (c0 : Context) (r : Request) : Result :=
  call (.rejectGuests c0) <|
  match env.rejectGuests c0 with
  | some permissionErr => .fail permissionErr
  | none =>
  let c : Context := { c0 with Params := { c0.Params with TeamId := r.QueryGet "team_id" } }
  let rest : Result :=
    call (.GetUser c.AppContext.Session.UserId) <|
    match env.GetUser c.AppContext.Session.UserId with
    | .error err => .fail err
    | .ok user =>
    let loc := user.GetTimezoneLocation
    call (.GetStartOfDayForTimeRange c.Params.TimeRange loc) <|
    match env.GetStartOfDayForTimeRange c.Params.TimeRange loc with
    | .error appErr => .fail appErr
    | .ok startTime =>
    call (.GetTopInactiveChannelsForUserSince c.AppContext c.Params.TeamId
      c.AppContext.Session.UserId (insightsOpts c startTime)) <|
    match env.GetTopInactiveChannelsForUserSince c.AppContext c.Params.TeamId
        c.AppContext.Session.UserId (insightsOpts c startTime) with
    | .error err => .fail err
    | .ok topChannels =>
    encode env "getTopInactiveChannelsForUserSince" c.Err (.inactiveChannels topChannels)
  if c.Params.TeamId ≠ "" then
    if !env.IsValidId c.Params.TeamId then
      .fail (env.SetInvalidURLParam c "team_id")
    else
    call (.GetTeam c.Params.TeamId) <|
    match env.GetTeam c.Params.TeamId with
    | .error teamErr => .fail teamErr
    | .ok team =>
    call (.SessionHasPermissionToTeam c.AppContext.Session team.Id PermissionViewTeam) <|
    if !env.SessionHasPermissionToTeam c.AppContext.Session team.Id PermissionViewTeam then
      .fail (env.SetPermissionError c PermissionViewTeam)
    else rest
  else rest

/-- Handler `getNewTeamMembersSince` (insights.go, lines 580-637). -/
def getNewTeamMembersSince (env : Env) (c : Context) : Result :=
  call (.minimumProfessionalLicense c) <|
  match env.minimumProfessionalLicense c with
  | some permissionErr => .fail permissionErr
  | none =>
  call (.rejectGuests c) <|
  match env.rejectGuests c with
  | some permissionErr => .fail permissionErr
  | none =>
  call (.RequireTeamId c) <|
  match env.RequireTeamId c with
  | some err => .fail err
  | none =>
  call (.GetTeam c.Params.TeamId) <|
  match env.GetTeam c.Params.TeamId with
  | .error err => .fail err
  | .ok team =>
  call (.SessionHasPermissionToTeam c.AppContext.Session team.Id PermissionViewTeam) <|
  if !env.SessionHasPermissionToTeam c.AppContext.Session team.Id PermissionViewTeam then
    .fail (env.SetPermissionError c PermissionViewTeam)
  else
  call (.GetUser c.AppContext.Session.UserId) <|
  match env.GetUser c.AppContext.Session.UserId with
  | .error err => .fail err
  | .ok user =>
  let loc := user.GetTimezoneLocation
  call (.GetStartOfDayForTimeRange c.Params.TimeRange loc) <|
  match env.GetStartOfDayForTimeRange c.Params.TimeRange loc with
  | .error appErr => .fail appErr
  | .ok startTime =>
  call (.GetNewTeamMembersSince c.AppContext c.Params.TeamId (insightsOpts c startTime)) <|
  match env.GetNewTeamMembersSince c.AppContext c.Params.TeamId
      (insightsOpts c startTime) with
  | .error err => .fail err
  | .ok (ntms, count) =>
  encode env "getNewTeamembersForTeamSince" none
    (.newTeamMembers { ntms with TotalCount := count })

/-! ## The routes -/

/-- The ten routes registered by `InitInsights` (insights.go, lines 14-36). -/
inductive Endpoint where
  | reactionsForTeam
  | reactionsForUser
  | channelsForTeam
  | channelsForUser
  | threadsForTeam
  | threadsForUser
  | dmsForUser
  | inactiveChannelsForTeam
  | inactiveChannelsForUser
  | teamMembersForTeam
deriving DecidableEq, Repr

/-- Routes under `InsightsForTeam`. -/
def Endpoint.teamScoped : Endpoint → Bool
  | .reactionsForTeam | .channelsForTeam | .threadsForTeam | .inactiveChannelsForTeam
  | .teamMembersForTeam => true
  | _ => false

/-- User-scoped routes that read the optional `team_id` query parameter. -/
def Endpoint.readsTeamIdQuery : Endpoint → Bool
  | .reactionsForUser | .channelsForUser | .threadsForUser | .inactiveChannelsForUser => true
  | _ => false

/-- The two channel-ranking routes. -/
def Endpoint.ranksChannels : Endpoint → Bool
  | .channelsForTeam | .channelsForUser => true
  | _ => false

/-- Serving a request on a route: the handler `InitInsights` registers for it. -/
def handle (ep : Endpoint) (env : Env) (c : Context) (r : Request) : Result :=
  match ep with
  | .reactionsForTeam => getTopReactionsForTeamSince env c
  | .reactionsForUser => getTopReactionsForUserSince env c r
  | .channelsForTeam => getTopChannelsForTeamSince env c
  | .channelsForUser => getTopChannelsForUserSince env c r
  | .threadsForTeam => getTopThreadsForTeamSince env c
  | .threadsForUser => getTopThreadsForUserSince env c r
  | .dmsForUser => getTopDMsForUserSince env c
  | .inactiveChannelsForTeam => getTopInactiveChannelsForTeamSince env c
  | .inactiveChannelsForUser => getTopInactiveChannelsForUserSince env c r
  | .teamMembersForTeam => getNewTeamMembersSince env c

/-! ## Reading the call log -/

def Call.isLicenseCheck : Call → Bool
  | .minimumProfessionalLicense _ => true
  | _ => false

def Call.isGuestCheck : Call → Bool
  | .rejectGuests _ => true
  | _ => false

def Call.isRequireTeamId : Call → Bool
  | .RequireTeamId _ => true
  | _ => false

def Call.isGetTeam : Call → Bool
  | .GetTeam _ => true
  | _ => false

def Call.isPermissionCheck : Call → Bool
  | .SessionHasPermissionToTeam _ _ _ => true
  | _ => false

def Call.isGetUser : Call → Bool
  | .GetUser _ => true
  | _ => false

def Call.isTimeRangeResolution : Call → Bool
  | .GetStartOfDayForTimeRange _ _ => true
  | _ => false

/-- The `InsightsOpts` of a delegated ranking query, `none` for any other call. -/
def Call.rankingOpts : Call → Option InsightsOpts
  | .GetTopReactionsForTeamSince _ _ opts => some opts
  | .GetTopReactionsForUserSince _ _ opts => some opts
  | .GetTopChannelsForTeamSince _ _ _ opts => some opts
  | .GetTopChannelsForUserSince _ _ _ opts => some opts
  | .GetTopThreadsForTeamSince _ _ _ opts => some opts
  | .GetTopThreadsForUserSince _ _ _ opts => some opts
  | .GetTopDMsForUserSince _ opts => some opts
  | .GetTopInactiveChannelsForTeamSince _ _ _ opts => some opts
  | .GetTopInactiveChannelsForUserSince _ _ _ opts => some opts
  | .GetNewTeamMembersSince _ _ opts => some opts
  | _ => none

def Call.isRankingQuery (k : Call) : Bool := k.rankingOpts.isSome

def Call.isCountingQuery : Call → Bool
  | .PostCountsByDuration _ _ _ _ _ _ => true
  | _ => false

def Call.isComposer : Call → Bool
  | .postCountByDurationViewModel _ _ _ _ _ => true
  | _ => false

def Call.isEncode : Call → Bool
  | .Encode _ => true
  | _ => false

/-- The granularity handed to the counting collaborator, `none` for any other call. -/
def Call.grouping : Call → Option PostCountGrouping
  | .PostCountsByDuration _ _ _ _ grouping _ => some grouping
  | _ => none

/-- The user filter handed to the counting collaborator, `none` for any other call. -/
def Call.userFilter : Call → Option (Option String)
  | .PostCountsByDuration _ _ _ userID _ _ => some userID
  | _ => none

/-- Whether the log holds a call of the given kind. -/
def Result.invoked (r : Result) (kind : Call → Bool) : Bool := r.calls.any kind

/-- The error the deployment answers a logged call of the counting collaborator with;
`none` when the call succeeds, and for any other call. -/
def Env.countingError (env : Env) : Call → Option AppError
  | .PostCountsByDuration ctx channelIDs startUnixMilli userID grouping location =>
    match env.PostCountsByDuration ctx channelIDs startUnixMilli userID grouping location with
    | .error e => some e
    | .ok _ => none
  | _ => none

/-- The error the deployment answers a logged channel ranking query with; `none` when the
query succeeds, and for any other call. -/
def Env.channelRankingError (env : Env) : Call → Option AppError
  | .GetTopChannelsForTeamSince ctx teamId userId opts =>
    match env.GetTopChannelsForTeamSince ctx teamId userId opts with
    | .error e => some e
    | .ok _ => none
  | .GetTopChannelsForUserSince ctx userId teamId opts =>
    match env.GetTopChannelsForUserSince ctx userId teamId opts with
    | .error e => some e
    | .ok _ => none
  | _ => none

/-! ## Concrete requests

A deployment in which every step succeeds, and variants of it in which one step fails. -/

def licenseErr : AppError := ⟨"", "api.license.upgrade_needed.app_error", "", 501⟩

def guestErr : AppError := ⟨"", "api.insights.guests_not_allowed", "", 403⟩

def userErr : AppError := ⟨"GetUser", "app.user.missing_account.const", "", 404⟩

def teamErr : AppError := ⟨"GetTeam", "app.team.get.find.app_error", "", 404⟩

def rangeErr : AppError := ⟨"Insights.IsValidRequest", "model.insights.time_range.app_error", "", 400⟩

def rankErr : AppError := ⟨"GetTopChannels", "app.insights.ranking.app_error", "", 500⟩

def countErr : AppError := ⟨"PostCountsByDuration", "app.post.counts.app_error", "", 500⟩

def invalidParamErr (name : String) : AppError :=
  ⟨"Context", "api.context.invalid_url_param.app_error", name, 400⟩

def permissionErr (p : Permission) : AppError :=
  ⟨"Permissions", "api.context.permissions.app_error", p.Id, 403⟩

/-- The ranked channel list of the scenario of the spec: the single channel C1. -/
def demoChannels : TopChannelList := ⟨false, [⟨"C1", 9⟩], none⟩

/-- The start instant the demo deployment resolves every recognised range to. -/
def demoStart : Time := ⟨1000⟩

/-- The sparse rows of the scenario of the spec: 5 posts in C1 on day 3. -/
def demoRows : List DurationPostCount := [⟨"C1", 1000 + 3 * 86400000, 5⟩]

def demoEnv : Env where
  minimumProfessionalLicense := fun _ => none
  rejectGuests := fun _ => none
  RequireTeamId := fun c => if c.Params.TeamId = "team1" then c.Err else
    some (invalidParamErr "team_id")
  IsValidId := fun id => id == "team1"
  SetInvalidURLParam := fun _ name => invalidParamErr name
  SetPermissionError := fun _ p => permissionErr p
  GetTeam := fun id => if id = "team1" then .ok ⟨id⟩ else .error teamErr
  SessionHasPermissionToTeam := fun _ _ _ => true
  GetUser := fun id => .ok ⟨id, none⟩
  GetStartOfDayForTimeRange := fun timeRange _ =>
    if timeRange = TimeRangeToday ∨ timeRange = TimeRange7Day ∨ timeRange = TimeRange28Day
    then .ok demoStart else .error rangeErr
  GetTopReactionsForTeamSince := fun _ _ _ => .ok ⟨false, [⟨"+1", 3⟩]⟩
  GetTopReactionsForUserSince := fun _ _ _ => .ok ⟨false, [⟨"+1", 2⟩]⟩
  GetTopChannelsForTeamSince := fun _ _ _ _ => .ok demoChannels
  GetTopChannelsForUserSince := fun _ _ _ _ => .ok demoChannels
  GetTopThreadsForTeamSince := fun _ _ _ _ => .ok ⟨false, [⟨"post1", 4⟩]⟩
  GetTopThreadsForUserSince := fun _ _ _ _ => .ok ⟨false, [⟨"post1", 1⟩]⟩
  GetTopDMsForUserSince := fun _ _ => .ok ⟨false, [⟨"user2", 7⟩]⟩
  GetTopInactiveChannelsForTeamSince := fun _ _ _ _ => .ok ⟨false, [⟨"C9", 0⟩]⟩
  GetTopInactiveChannelsForUserSince := fun _ _ _ _ => .ok ⟨false, [⟨"C9", 0⟩]⟩
  GetNewTeamMembersSince := fun _ _ _ => .ok (⟨false, [⟨"user3", 0⟩], 0⟩, 1)
  PostCountsByDuration := fun _ _ _ _ _ _ => .ok demoRows
  Encode := fun _ => none

/-- A request for the last seven days on team `team1`, page 2 with 5 items a page. -/
def demoContext : Context :=
  ⟨⟨⟨"session1", "user1"⟩⟩, ⟨"team1", TimeRange7Day, 2, 5⟩, none⟩

/-- A request without a query string. -/
def demoRequest : Request := ⟨[]⟩

/-- A request whose `team_id` query parameter is not a well-formed identifier. -/
def badTeamRequest : Request := ⟨[("team_id", "not an id")]⟩

/-- The acting user is a guest. -/
def guestEnv : Env := { demoEnv with rejectGuests := fun _ => some guestErr }

/-- The acting user is a guest and the license is below professional. -/
def unlicensedGuestEnv : Env :=
  { demoEnv with
    minimumProfessionalLicense := fun _ => some licenseErr
    rejectGuests := fun _ => some guestErr }

/-- The license is below professional. -/
def unlicensedEnv : Env := { demoEnv with minimumProfessionalLicense := fun _ => some licenseErr }

/-- The session has no permission on any team. -/
def noPermissionEnv : Env := { demoEnv with SessionHasPermissionToTeam := fun _ _ _ => false }

/-- The user lookup fails. -/
def noUserEnv : Env := { demoEnv with GetUser := fun _ => .error userErr }

/-- The user lookup fails and the session has no permission on any team. -/
def noUserNoPermissionEnv : Env :=
  { demoEnv with
    GetUser := fun _ => .error userErr
    SessionHasPermissionToTeam := fun _ _ _ => false }

/-- The counting collaborator fails. -/
def countFailsEnv : Env := { demoEnv with PostCountsByDuration := fun _ _ _ _ _ _ => .error countErr }

/-- The channel ranking queries fail. -/
def rankFailsEnv : Env :=
  { demoEnv with
    GetTopChannelsForTeamSince := fun _ _ _ _ => .error rankErr
    GetTopChannelsForUserSince := fun _ _ _ _ => .error rankErr }

/-! ## Shared lemmas -/

theorem items_length_ne_zero {l : TopChannelList} (h : l.Items ≠ []) :
    ¬ l.Items.length = 0 := by
  intro h0
  exact h (List.length_eq_zero.mp h0)

/-- The log of the composer on a non-empty ranked list: one call of the counting
collaborator. -/
theorem composer_calls {env : Env} {c : Context} {l : TopChannelList} {s : Time}
    {timeRange : String} {u : Option String} {loc : Location} (h : l.Items ≠ []) :
    (postCountByDurationViewModel env c l s timeRange u loc).calls =
      [Call.PostCountsByDuration c.AppContext l.ChannelIDs s.UnixMilli u
        (if timeRange = TimeRangeToday then PostCountGrouping.PostsByHour
          else PostCountGrouping.PostsByDay) loc] := by
  have h0 := items_length_ne_zero h
  unfold postCountByDurationViewModel
  simp only [h0, if_false]
  split <;> rfl

/-- The log of the composer on an empty ranked list is empty. -/
theorem composer_calls_empty {env : Env} {c : Context} {l : TopChannelList} {s : Time}
    {timeRange : String} {u : Option String} {loc : Location} (h : l.Items = []) :
    postCountByDurationViewModel env c l s timeRange u loc = ⟨none, none, []⟩ := by
  unfold postCountByDurationViewModel
  simp [h]

/-- Looking a listed channel up in a table built channel by channel gives its entry. -/
theorem lookup_map_self {β : Type} (f : String → β) (ids : List String) (id : String)
    (h : id ∈ ids) : (ids.map (fun x => (x, f x))).lookup id = some (f id) := by
  induction ids with
  | nil => simp at h
  | cons x xs ih =>
    by_cases hx : id = x
    · subst hx
      simp [List.lookup]
    · have hmem : id ∈ xs := by
        rcases List.mem_cons.mp h with h1 | h1
        · exact absurd h1 hx
        · exact h1
      have hbeq : (id == x) = false := by simpa using hx
      simp only [List.map_cons, List.lookup, hbeq]
      exact ih hmem

/-- A (channel, bucket) pair absent from the rows has no row. -/
theorem findRow_none {rows : List DurationPostCount} {id : String} {b : Int}
    (h : ∀ row ∈ rows, ¬ (row.ChannelID = id ∧ row.Duration = b)) :
    findRow rows id b = none := by
  unfold findRow
  rw [List.find?_eq_none]
  intro row hrow
  simpa using h row hrow

/-! ## Reading results through the logging steps -/

@[simp] theorem call_calls (k : Call) (rest : Result) :
    (call k rest).calls = k :: rest.calls := rfl

@[simp] theorem call_Err (k : Call) (rest : Result) : (call k rest).Err = rest.Err := rfl

@[simp] theorem call_body (k : Call) (rest : Result) : (call k rest).body = rest.body := rfl

@[simp] theorem calls_calls (ks : List Call) (rest : Result) :
    (calls ks rest).calls = ks ++ rest.calls := rfl

@[simp] theorem calls_Err (ks : List Call) (rest : Result) :
    (calls ks rest).Err = rest.Err := rfl

@[simp] theorem calls_body (ks : List Call) (rest : Result) :
    (calls ks rest).body = rest.body := rfl

@[simp] theorem fail_calls (e : AppError) : (Result.fail e).calls = [] := rfl

@[simp] theorem fail_Err (e : AppError) : (Result.fail e).Err = some e := rfl

@[simp] theorem fail_body (e : AppError) : (Result.fail e).body = none := rfl

@[simp] theorem encode_calls (env : Env) (handler : String) (err : Option AppError)
    (payload : Payload) : (encode env handler err payload).calls = [Call.Encode payload] := by
  unfold encode
  split <;> rfl

/-- The log of the composer: empty on an empty ranked list, one call of the counting
collaborator otherwise. -/
theorem composer_calls_eq (env : Env) (c : Context) (l : TopChannelList) (s : Time)
    (timeRange : String) (u : Option String) (loc : Location) :
    (postCountByDurationViewModel env c l s timeRange u loc).calls =
      if l.Items = [] then []
      else [Call.PostCountsByDuration c.AppContext l.ChannelIDs s.UnixMilli u
        (if timeRange = TimeRangeToday then PostCountGrouping.PostsByHour
          else PostCountGrouping.PostsByDay) loc] := by
  by_cases h : l.Items = []
  · rw [composer_calls_empty h, if_pos h]
  · rw [composer_calls h, if_neg h]

/-- The composer makes no ranking query. -/
theorem composer_rankingOpts (env : Env) (c : Context) (l : TopChannelList) (s : Time)
    (timeRange : String) (u : Option String) (loc : Location) :
    (postCountByDurationViewModel env c l s timeRange u loc).calls.filterMap
      Call.rankingOpts = [] := by
  rw [composer_calls_eq]
  split <;> simp [Call.rankingOpts]

/-! ## The composer -/

/-- C4: called with a ranked channel list that has no items, whatever the start instant,
range symbol, user filter and timezone, postCountByDurationViewModel returns the nil
aggregation with no error, and its call log is empty: PostCountsByDuration is not
invoked. -/
theorem C4_empty_list_returns_nil_without_counting (env : Env) (c : Context)
    (topChannelList : TopChannelList) (startTime : Time) (timeRange : String)
    (userID : Option String) (location : Location) (h : topChannelList.Items = []) :
    (postCountByDurationViewModel env c topChannelList startTime timeRange userID
        location).value = none ∧
    (postCountByDurationViewModel env c topChannelList startTime timeRange userID
        location).Err = none ∧
    (postCountByDurationViewModel env c topChannelList startTime timeRange userID
        location).calls = [] := by
  rw [composer_calls_empty h]
  exact ⟨rfl, rfl, rfl⟩

/-- The composer on an empty list, at the demo deployment. -/
theorem C4_witness :
    (postCountByDurationViewModel demoEnv demoContext ⟨false, [], none⟩ demoStart
        TimeRange7Day none ⟨"UTC"⟩).value = none ∧
    (postCountByDurationViewModel demoEnv demoContext ⟨false, [], none⟩ demoStart
        TimeRange7Day none ⟨"UTC"⟩).Err = none ∧
    (postCountByDurationViewModel demoEnv demoContext ⟨false, [], none⟩ demoStart
        TimeRange7Day none ⟨"UTC"⟩).calls = [] :=
  C4_empty_list_returns_nil_without_counting demoEnv demoContext ⟨false, [], none⟩ demoStart
    TimeRange7Day none ⟨"UTC"⟩ rfl

/-- C6: on a non-empty ranked channel list, the granularity the composer hands to the
counting collaborator is PostsByHour when the range symbol is Today and PostsByDay for
every other range symbol; two calls with the same range symbol hand over the same
granularity, whatever their deployments, contexts, channel lists, start instants, user
filters and timezones. -/
theorem C6_granularity_from_range_symbol_alone (timeRange : String)
    (env₁ env₂ : Env) (c₁ c₂ : Context) (l₁ l₂ : TopChannelList) (s₁ s₂ : Time)
    (u₁ u₂ : Option String) (loc₁ loc₂ : Location)
    (h₁ : l₁.Items ≠ []) (h₂ : l₂.Items ≠ []) :
    (postCountByDurationViewModel env₁ c₁ l₁ s₁ timeRange u₁ loc₁).calls.map Call.grouping =
      [some (if timeRange = TimeRangeToday then PostCountGrouping.PostsByHour
        else PostCountGrouping.PostsByDay)] ∧
    (postCountByDurationViewModel env₁ c₁ l₁ s₁ timeRange u₁ loc₁).calls.map Call.grouping =
      (postCountByDurationViewModel env₂ c₂ l₂ s₂ timeRange u₂ loc₂).calls.map
        Call.grouping := by
  rw [composer_calls h₁, composer_calls h₂]
  simp [Call.grouping]

/-- The composer on Today and on the last seven days: hourly, then daily. -/
theorem C6_witness :
    (postCountByDurationViewModel demoEnv demoContext demoChannels demoStart TimeRangeToday
        none ⟨"UTC"⟩).calls.map Call.grouping = [some PostCountGrouping.PostsByHour] ∧
    (postCountByDurationViewModel countFailsEnv demoContext demoChannels ⟨5⟩ TimeRange7Day
        (some "user1") ⟨"CET"⟩).calls.map Call.grouping =
      [some PostCountGrouping.PostsByDay] :=
  ⟨(C6_granularity_from_range_symbol_alone TimeRangeToday demoEnv countFailsEnv demoContext
      demoContext demoChannels demoChannels demoStart ⟨5⟩ none (some "user1") ⟨"UTC"⟩
      ⟨"CET"⟩ (by decide) (by decide)).1,
    (C6_granularity_from_range_symbol_alone TimeRange7Day countFailsEnv demoEnv demoContext
      demoContext demoChannels demoChannels ⟨5⟩ demoStart (some "user1") none ⟨"CET"⟩
      ⟨"UTC"⟩ (by decide) (by decide)).1⟩

/-- C7: on a non-empty ranked channel list and whatever rows the counting collaborator
returns, the result of the composer is the dense table: every channel identifier of the
ranked list has an entry holding one count per bucket, the number of buckets being that
of the range symbol (24 for Today, 7 for the last seven days, 28 for the last 28 days) and
not depending on the rows; bucket number i starts i units after the start instant (hours
for Today, days otherwise); its count is that of the row of the pair, and 0 when the rows
hold no row for the pair. The number of buckets is the value TimeRangeToNumberDays of the
range symbol handed to ToDailyPostCountViewModel. -/
theorem C7_dense_buckets_from_range_symbol (env : Env) (c : Context) (l : TopChannelList)
    (s : Time) (timeRange : String) (u : Option String) (loc : Location)
    (rows : List DurationPostCount) (n : Nat)
    (hl : l.Items ≠ [])
    (hn : (timeRange = TimeRangeToday ∧ n = 24) ∨ (timeRange = TimeRange7Day ∧ n = 7) ∨
      (timeRange = TimeRange28Day ∧ n = 28))
    (hrows : env.PostCountsByDuration c.AppContext l.ChannelIDs s.UnixMilli u
      (if timeRange = TimeRangeToday then PostCountGrouping.PostsByHour
        else PostCountGrouping.PostsByDay) loc = .ok rows) :
    (postCountByDurationViewModel env c l s timeRange u loc).Err = none ∧
    (postCountByDurationViewModel env c l s timeRange u loc).value =
      some (ToDailyPostCountViewModel rows s (TimeRangeToNumberDays timeRange)
        l.ChannelIDs) ∧
    TimeRangeToNumberDays timeRange = n ∧
    ∃ vm, (postCountByDurationViewModel env c l s timeRange u loc).value = some vm ∧
      ∀ id ∈ l.ChannelIDs, ∃ counts, vm.lookup id = some counts ∧ counts.length = n ∧
        ∀ i, i < n →
          (∀ row, findRow rows id (s.UnixMilli + (i : Int) *
              (if timeRange = TimeRangeToday then hourMilli else dayMilli)) = some row →
            counts[i]? = some row.PostCount) ∧
          ((∀ row ∈ rows, ¬ (row.ChannelID = id ∧ row.Duration = s.UnixMilli + (i : Int) *
              (if timeRange = TimeRangeToday then hourMilli else dayMilli))) →
            counts[i]? = some 0) := by
  have h0 := items_length_ne_zero hl
  have hnum : TimeRangeToNumberDays timeRange = n := by
    rcases hn with ⟨h, hn⟩ | ⟨h, hn⟩ | ⟨h, hn⟩ <;> subst h <;> subst hn <;> decide
  have hunit : bucketUnitMilli n =
      (if timeRange = TimeRangeToday then hourMilli else dayMilli) := by
    rcases hn with ⟨h, hn⟩ | ⟨h, hn⟩ | ⟨h, hn⟩ <;> subst h <;> subst hn <;> decide
  have hval : postCountByDurationViewModel env c l s timeRange u loc =
      ⟨some (ToDailyPostCountViewModel rows s (TimeRangeToNumberDays timeRange)
        l.ChannelIDs), none,
        [Call.PostCountsByDuration c.AppContext l.ChannelIDs s.UnixMilli u
          (if timeRange = TimeRangeToday then PostCountGrouping.PostsByHour
            else PostCountGrouping.PostsByDay) loc]⟩ := by
    unfold postCountByDurationViewModel
    simp only [h0, if_false]
    rw [hrows]
  rw [hval]
  refine ⟨rfl, rfl, hnum, _, rfl, ?_⟩
  intro id hid
  rw [hnum]
  refine ⟨_, lookup_map_self _ _ id hid, by simp, ?_⟩
  intro i hi
  have hget : ((List.range n).map (fun i =>
      bucketCount rows id (bucketStart s n i)))[i]? =
      some (bucketCount rows id (bucketStart s n i)) := by
    simp [List.getElem?_range hi]
  rw [hget]
  unfold bucketCount bucketStart
  rw [hunit]
  constructor
  · intro row hrow
    rw [hrow]
  · intro hnone
    rw [findRow_none hnone]

/-- The scenario of the spec: one channel, the last seven days, 5 posts on day 3. -/
theorem C7_witness :
    (postCountByDurationViewModel demoEnv demoContext demoChannels demoStart TimeRange7Day
      none ⟨"UTC"⟩).value = some [("C1", [0, 0, 0, 5, 0, 0, 0])] ∧
    TimeRangeToNumberDays TimeRange7Day = 7 :=
  ⟨(C7_dense_buckets_from_range_symbol demoEnv demoContext demoChannels demoStart
      TimeRange7Day none ⟨"UTC"⟩ demoRows 7 (by decide) (Or.inr (Or.inl ⟨rfl, rfl⟩))
      rfl).2.1.trans (by decide),
    (C7_dense_buckets_from_range_symbol demoEnv demoContext demoChannels demoStart
      TimeRange7Day none ⟨"UTC"⟩ demoRows 7 (by decide) (Or.inr (Or.inl ⟨rfl, rfl⟩))
      rfl).2.2.1⟩


/-! ## The gate -/

/-- C1, as stated, fails: on the team-scoped reactions route a guest on a deployment whose
license is below professional is answered with the license error, not with the
guests-not-allowed error. -/
theorem C1_counterexample_license_checked_before_guest :
    unlicensedGuestEnv.rejectGuests demoContext = some guestErr ∧
    (handle .reactionsForTeam unlicensedGuestEnv demoContext demoRequest).Err =
      some licenseErr ∧
    (handle .reactionsForTeam unlicensedGuestEnv demoContext demoRequest).Err ≠
      some guestErr := by
  decide

/-- C1, amended: on each of the ten routes, when the acting user is a guest (rejectGuests
returns an error) and, on a team-scoped route, the professional-license check passes, the
request fails with the error of rejectGuests, nothing is written to the response, and no
team-id requirement check, team lookup, permission check, user lookup, time-range
resolution, ranking query, counting query or encoding is invoked. -/
theorem C1_guest_rejected_before_any_lookup (ep : Endpoint) (env : Env) (c : Context)
    (r : Request) (e : AppError)
    (hguest : env.rejectGuests c = some e)
    (hlicense : ep.teamScoped = true → env.minimumProfessionalLicense c = none) :
    (handle ep env c r).Err = some e ∧
    (handle ep env c r).body = none ∧
    (handle ep env c r).invoked Call.isRequireTeamId = false ∧
    (handle ep env c r).invoked Call.isGetTeam = false ∧
    (handle ep env c r).invoked Call.isPermissionCheck = false ∧
    (handle ep env c r).invoked Call.isGetUser = false ∧
    (handle ep env c r).invoked Call.isTimeRangeResolution = false ∧
    (handle ep env c r).invoked Call.isRankingQuery = false ∧
    (handle ep env c r).invoked Call.isCountingQuery = false ∧
    (handle ep env c r).invoked Call.isEncode = false := by
  cases ep <;>
    simp [Endpoint.teamScoped] at hlicense <;>
    simp [handle, getTopReactionsForTeamSince, getTopReactionsForUserSince,
      getTopChannelsForTeamSince, getTopChannelsForUserSince, getTopThreadsForTeamSince,
      getTopThreadsForUserSince, getTopDMsForUserSince, getTopInactiveChannelsForTeamSince,
      getTopInactiveChannelsForUserSince, getNewTeamMembersSince, hguest, hlicense, call,
      Result.fail, Result.invoked, Call.isRequireTeamId, Call.isGetTeam,
      Call.isPermissionCheck, Call.isGetUser, Call.isTimeRangeResolution,
      Call.isRankingQuery, Call.rankingOpts, Call.isCountingQuery, Call.isEncode]

/-- A guest on the user-scoped direct-message route and on the team-scoped channels route
of a licensed deployment. -/
theorem C1_witness :
    (handle .dmsForUser guestEnv demoContext demoRequest).Err = some guestErr ∧
    (handle .channelsForTeam guestEnv demoContext demoRequest).Err = some guestErr ∧
    (handle .channelsForTeam guestEnv demoContext demoRequest).invoked Call.isGetTeam =
      false :=
  ⟨(C1_guest_rejected_before_any_lookup .dmsForUser guestEnv demoContext demoRequest guestErr
      rfl (by decide)).1,
    (C1_guest_rejected_before_any_lookup .channelsForTeam guestEnv demoContext demoRequest
      guestErr rfl (fun _ => rfl)).1,
    (C1_guest_rejected_before_any_lookup .channelsForTeam guestEnv demoContext demoRequest
      guestErr rfl (fun _ => rfl)).2.2.2.1⟩

/-- C2: on each team-scoped route, when minimumProfessionalLicense returns an error, the
error of the request is exactly that error whatever the guest check would answer, the
license check is the only call made, and so no guest check, team-id requirement check,
team lookup, permission check, user lookup or ranking query is invoked. -/
theorem C2_license_error_first (ep : Endpoint) (env : Env) (c : Context) (r : Request)
    (e : AppError) (hep : ep.teamScoped = true)
    (hlicense : env.minimumProfessionalLicense c = some e) :
    (handle ep env c r).Err = some e ∧
    (∀ guestCheck : Context → Option AppError,
      (handle ep { env with rejectGuests := guestCheck } c r).Err = some e) ∧
    (handle ep env c r).body = none ∧
    (handle ep env c r).calls = [Call.minimumProfessionalLicense c] ∧
    (handle ep env c r).invoked Call.isGuestCheck = false ∧
    (handle ep env c r).invoked Call.isRequireTeamId = false ∧
    (handle ep env c r).invoked Call.isGetTeam = false ∧
    (handle ep env c r).invoked Call.isPermissionCheck = false ∧
    (handle ep env c r).invoked Call.isGetUser = false ∧
    (handle ep env c r).invoked Call.isRankingQuery = false := by
  cases ep <;>
    simp [Endpoint.teamScoped] at hep <;>
    simp [handle, getTopReactionsForTeamSince, getTopChannelsForTeamSince,
      getTopThreadsForTeamSince, getTopInactiveChannelsForTeamSince,
      getNewTeamMembersSince, hlicense, call, Result.fail, Result.invoked,
      Call.isGuestCheck, Call.isRequireTeamId, Call.isGetTeam, Call.isPermissionCheck,
      Call.isGetUser, Call.isRankingQuery, Call.rankingOpts]

/-- New team members on a deployment below the professional license, guest or not. -/
theorem C2_witness :
    (handle .teamMembersForTeam unlicensedEnv demoContext demoRequest).Err =
      some licenseErr ∧
    (handle .teamMembersForTeam unlicensedGuestEnv demoContext demoRequest).calls =
      [Call.minimumProfessionalLicense demoContext] :=
  ⟨(C2_license_error_first .teamMembersForTeam unlicensedEnv demoContext demoRequest
      licenseErr rfl rfl).1,
    (C2_license_error_first .teamMembersForTeam unlicensedGuestEnv demoContext demoRequest
      licenseErr rfl rfl).2.2.2.1⟩


/-- The composer logs nothing but calls of the counting collaborator. -/
theorem composer_filter_counting (env : Env) (c : Context) (l : TopChannelList) (s : Time)
    (timeRange : String) (u : Option String) (loc : Location) :
    (postCountByDurationViewModel env c l s timeRange u loc).calls.filter
      Call.isCountingQuery = (postCountByDurationViewModel env c l s timeRange u loc).calls := by
  rw [composer_calls_eq]
  split <;> simp [Call.isCountingQuery]

/-- Membership in the log of the composer. -/
theorem mem_composer_calls (env : Env) (c : Context) (l : TopChannelList) (s : Time)
    (timeRange : String) (u : Option String) (loc : Location) (k : Call) :
    k ∈ (postCountByDurationViewModel env c l s timeRange u loc).calls ↔
      l.Items ≠ [] ∧ k = Call.PostCountsByDuration c.AppContext l.ChannelIDs s.UnixMilli u
        (if timeRange = TimeRangeToday then PostCountGrouping.PostsByHour
          else PostCountGrouping.PostsByDay) loc := by
  rw [composer_calls_eq]
  split <;> simp_all

/-! ## The orchestrators -/

/-- C8: on every route, the InsightsOpts of every ranking query in the log of a request
has Page equal to the page parameter of the request, PerPage equal to its per_page
parameter, and StartUnixMilli equal to the Unix milliseconds of the start instant that
GetStartOfDayForTimeRange resolved from the time range of the request and the timezone of
the acting user; the values are handed over as they are. -/
theorem C8_insights_opts_passed_through (ep : Endpoint) (env : Env) (c : Context)
    (r : Request) (k : Call) (opts : InsightsOpts)
    (hk : k ∈ (handle ep env c r).calls) (hopts : k.rankingOpts = some opts) :
    opts.Page = c.Params.Page ∧ opts.PerPage = c.Params.PerPage ∧
    ∃ user startTime,
      env.GetUser c.AppContext.Session.UserId = .ok user ∧
      env.GetStartOfDayForTimeRange c.Params.TimeRange user.GetTimezoneLocation =
        .ok startTime ∧
      opts.StartUnixMilli = startTime.UnixMilli := by
  have ho : opts ∈ (handle ep env c r).calls.filterMap Call.rankingOpts :=
    List.mem_filterMap.2 ⟨k, hk, hopts⟩
  clear hk hopts
  cases ep <;>
    simp only [handle, getTopReactionsForTeamSince, getTopReactionsForUserSince,
      getTopChannelsForTeamSince, getTopChannelsForUserSince, getTopThreadsForTeamSince,
      getTopThreadsForUserSince, getTopDMsForUserSince, getTopInactiveChannelsForTeamSince,
      getTopInactiveChannelsForUserSince, getNewTeamMembersSince, call_calls] at ho <;>
    (repeat' (split at ho <;>
      try simp only [call_calls, calls_calls, fail_calls, encode_calls] at ho)) <;>
    simp [Call.rankingOpts, composer_rankingOpts] at ho <;>
    subst ho <;>
    simp_all [insightsOpts]

/-- The ranking query of the team-scoped reactions route, page 2 with 5 items a page. -/
theorem C8_witness :
    Call.GetTopReactionsForTeamSince "team1" "user1" ⟨1000, 2, 5⟩ ∈
      (handle .reactionsForTeam demoEnv demoContext demoRequest).calls ∧
    (2 : Int) = demoContext.Params.Page ∧ (5 : Int) = demoContext.Params.PerPage ∧
    ∃ user startTime,
      demoEnv.GetUser demoContext.AppContext.Session.UserId = .ok user ∧
      demoEnv.GetStartOfDayForTimeRange demoContext.Params.TimeRange
        user.GetTimezoneLocation = .ok startTime ∧
      (1000 : Int) = startTime.UnixMilli :=
  ⟨by decide,
    C8_insights_opts_passed_through .reactionsForTeam demoEnv demoContext demoRequest
      (Call.GetTopReactionsForTeamSince "team1" "user1" ⟨1000, 2, 5⟩) ⟨1000, 2, 5⟩
      (by decide) rfl⟩

/-- C5: on a non-empty ranked channel list the composer makes exactly one call, a call of
the counting collaborator PostCountsByDuration, with the channel identifiers of the ranked
list, the Unix milliseconds of the start instant, and the user filter and timezone of its
caller, so it makes no team lookup, permission check or channel fetch. On the team-scoped
channels route every counting call in the log was made with the identifiers of the list the
ranking query returned, the resolved start instant and no user filter; on the user-scoped
channels route, with the user id of the acting session as the filter. -/
theorem C5_counting_call_arguments (env : Env) (c : Context) (r : Request)
    (l : TopChannelList) (s : Time) (timeRange : String) (u : Option String)
    (loc : Location) (hl : l.Items ≠ []) :
    (postCountByDurationViewModel env c l s timeRange u loc).calls =
      [Call.PostCountsByDuration c.AppContext l.ChannelIDs s.UnixMilli u
        (if timeRange = TimeRangeToday then PostCountGrouping.PostsByHour
          else PostCountGrouping.PostsByDay) loc] ∧
    (∀ k ∈ (handle .channelsForTeam env c r).calls, k.isCountingQuery = true →
      ∃ user startTime topChannels,
        env.GetUser c.AppContext.Session.UserId = .ok user ∧
        env.GetStartOfDayForTimeRange c.Params.TimeRange user.GetTimezoneLocation =
          .ok startTime ∧
        env.GetTopChannelsForTeamSince c.AppContext c.Params.TeamId
          c.AppContext.Session.UserId (insightsOpts c startTime) = .ok topChannels ∧
        k = Call.PostCountsByDuration c.AppContext topChannels.ChannelIDs
          startTime.UnixMilli none
          (if c.Params.TimeRange = TimeRangeToday then PostCountGrouping.PostsByHour
            else PostCountGrouping.PostsByDay) user.GetTimezoneLocation) ∧
    (∀ k ∈ (handle .channelsForUser env c r).calls, k.isCountingQuery = true →
      ∃ user startTime topChannels,
        env.GetUser c.AppContext.Session.UserId = .ok user ∧
        env.GetStartOfDayForTimeRange c.Params.TimeRange user.GetTimezoneLocation =
          .ok startTime ∧
        env.GetTopChannelsForUserSince c.AppContext c.AppContext.Session.UserId
          (r.QueryGet "team_id") (insightsOpts c startTime) = .ok topChannels ∧
        k = Call.PostCountsByDuration c.AppContext topChannels.ChannelIDs
          startTime.UnixMilli (some c.AppContext.Session.UserId)
          (if c.Params.TimeRange = TimeRangeToday then PostCountGrouping.PostsByHour
            else PostCountGrouping.PostsByDay) user.GetTimezoneLocation) := by
  refine ⟨composer_calls hl, ?_, ?_⟩
  · intro k hk hc
    have ho : k ∈ (handle .channelsForTeam env c r).calls.filter Call.isCountingQuery :=
      List.mem_filter.2 ⟨hk, hc⟩
    clear hk hc
    simp only [handle, getTopChannelsForTeamSince, call_calls] at ho
    (repeat' (split at ho <;>
      try simp only [call_calls, calls_calls, fail_calls, encode_calls] at ho)) <;>
    simp [Call.isCountingQuery, composer_filter_counting, mem_composer_calls] at ho <;>
    simp_all [insightsOpts]
  · intro k hk hc
    have ho : k ∈ (handle .channelsForUser env c r).calls.filter Call.isCountingQuery :=
      List.mem_filter.2 ⟨hk, hc⟩
    clear hk hc
    simp only [handle, getTopChannelsForUserSince, call_calls] at ho
    (repeat' (split at ho <;>
      try simp only [call_calls, calls_calls, fail_calls, encode_calls] at ho)) <;>
    simp [Call.isCountingQuery, composer_filter_counting, mem_composer_calls] at ho <;>
    simp_all [insightsOpts]


/-- The errors the counting collaborator answered the calls of the composer with are the
error the composer returns. -/
theorem composer_countingError (env : Env) (c : Context) (l : TopChannelList) (s : Time)
    (timeRange : String) (u : Option String) (loc : Location) :
    (postCountByDurationViewModel env c l s timeRange u loc).calls.filterMap
      env.countingError = (postCountByDurationViewModel env c l s timeRange u loc).Err.toList := by
  by_cases h : l.Items = []
  · rw [composer_calls_empty h]
    rfl
  · have h0 := items_length_ne_zero h
    unfold postCountByDurationViewModel
    simp only [h0, if_false]
    split <;> simp_all [Env.countingError]

/-- The composer makes no channel ranking query. -/
theorem composer_channelRankingError (env : Env) (c : Context) (l : TopChannelList)
    (s : Time) (timeRange : String) (u : Option String) (loc : Location) :
    (postCountByDurationViewModel env c l s timeRange u loc).calls.filterMap
      env.channelRankingError = [] := by
  rw [composer_calls_eq]
  split <;> simp [Env.channelRankingError]

/-- The composer does not encode. -/
theorem composer_any_isEncode (env : Env) (c : Context) (l : TopChannelList)
    (s : Time) (timeRange : String) (u : Option String) (loc : Location) :
    (postCountByDurationViewModel env c l s timeRange u loc).calls.any Call.isEncode =
      false := by
  rw [composer_calls_eq]
  split <;> simp [Call.isEncode]

/-- The team-scoped channels route on the demo deployment: one counting call, without a
user filter; the user-scoped one filters on the acting user. -/
theorem C5_witness :
    (postCountByDurationViewModel demoEnv demoContext demoChannels demoStart TimeRange7Day
      none ⟨"UTC"⟩).calls =
      [Call.PostCountsByDuration demoContext.AppContext ["C1"] 1000 none
        PostCountGrouping.PostsByDay ⟨"UTC"⟩] ∧
    (handle .channelsForTeam demoEnv demoContext demoRequest).calls.filter
      Call.isCountingQuery =
      [Call.PostCountsByDuration demoContext.AppContext ["C1"] 1000 none
        PostCountGrouping.PostsByDay ⟨"UTC"⟩] ∧
    (handle .channelsForUser demoEnv demoContext demoRequest).calls.filter
      Call.isCountingQuery =
      [Call.PostCountsByDuration demoContext.AppContext ["C1"] 1000 (some "user1")
        PostCountGrouping.PostsByDay ⟨"UTC"⟩] :=
  ⟨(C5_counting_call_arguments demoEnv demoContext demoRequest demoChannels demoStart
      TimeRange7Day none ⟨"UTC"⟩ (by decide)).1,
    by decide, by decide⟩

/-- C10: on both channel-ranking routes, when a call of the counting collaborator in the
log of the request was answered with the error e, the composer returned no aggregation
together with e, the error of the request is e, and nothing is encoded to the response;
and when the channel ranking query in the log was answered with the error e, the error of
the request is e and neither the composer nor the counting collaborator nor the encoder
is invoked. -/
theorem C10_collaborator_errors_abort (ep : Endpoint) (env : Env) (c : Context)
    (r : Request) (e : AppError) (hep : ep.ranksChannels = true) :
    (∀ (l : TopChannelList) (s : Time) (timeRange : String) (u : Option String)
        (loc : Location), l.Items ≠ [] →
      env.PostCountsByDuration c.AppContext l.ChannelIDs s.UnixMilli u
        (if timeRange = TimeRangeToday then PostCountGrouping.PostsByHour
          else PostCountGrouping.PostsByDay) loc = .error e →
      (postCountByDurationViewModel env c l s timeRange u loc).value = none ∧
      (postCountByDurationViewModel env c l s timeRange u loc).Err = some e) ∧
    ((∃ k ∈ (handle ep env c r).calls, env.countingError k = some e) →
      (handle ep env c r).Err = some e ∧
      (handle ep env c r).body = none ∧
      (handle ep env c r).invoked Call.isEncode = false) ∧
    ((∃ k ∈ (handle ep env c r).calls, env.channelRankingError k = some e) →
      (handle ep env c r).Err = some e ∧
      (handle ep env c r).body = none ∧
      (handle ep env c r).invoked Call.isComposer = false ∧
      (handle ep env c r).invoked Call.isCountingQuery = false ∧
      (handle ep env c r).invoked Call.isEncode = false) := by
  refine ⟨?_, ?_, ?_⟩
  · intro l s timeRange u loc hl herr
    have h0 := items_length_ne_zero hl
    unfold postCountByDurationViewModel
    simp only [h0, if_false]
    rw [herr]
    exact ⟨rfl, rfl⟩
  · rintro ⟨k, hk, hke⟩
    have ho : e ∈ (handle ep env c r).calls.filterMap env.countingError :=
      List.mem_filterMap.2 ⟨k, hk, hke⟩
    clear hk hke
    revert ho
    cases ep <;> simp [Endpoint.ranksChannels] at hep <;>
      simp only [handle, getTopChannelsForTeamSince, getTopChannelsForUserSince,
        Result.invoked, call_calls, call_Err, call_body] <;>
      (repeat' (split <;>
        try simp only [call_calls, call_Err, call_body, calls_calls, calls_Err, calls_body,
          fail_calls, fail_Err, fail_body, encode_calls])) <;>
      simp_all [Env.countingError, composer_countingError, composer_any_isEncode,
        Call.isEncode]
  · rintro ⟨k, hk, hke⟩
    have ho : e ∈ (handle ep env c r).calls.filterMap env.channelRankingError :=
      List.mem_filterMap.2 ⟨k, hk, hke⟩
    clear hk hke
    revert ho
    cases ep <;> simp [Endpoint.ranksChannels] at hep <;>
      simp only [handle, getTopChannelsForTeamSince, getTopChannelsForUserSince,
        Result.invoked, call_calls, call_Err, call_body] <;>
      (repeat' (split <;>
        try simp only [call_calls, call_Err, call_body, calls_calls, calls_Err, calls_body,
          fail_calls, fail_Err, fail_body, encode_calls])) <;>
      simp_all [Env.channelRankingError, composer_channelRankingError, Call.isEncode,
        Call.isComposer, Call.isCountingQuery]


/-- The team-scoped channels route when the counting collaborator fails, and the
user-scoped one when the ranking query fails. -/
theorem C10_witness :
    ((handle .channelsForTeam countFailsEnv demoContext demoRequest).Err = some countErr ∧
      (handle .channelsForTeam countFailsEnv demoContext demoRequest).body = none ∧
      (handle .channelsForTeam countFailsEnv demoContext demoRequest).invoked Call.isEncode =
        false) ∧
    (handle .channelsForUser rankFailsEnv demoContext demoRequest).Err = some rankErr ∧
    (handle .channelsForUser rankFailsEnv demoContext demoRequest).invoked Call.isComposer =
      false :=
  ⟨(C10_collaborator_errors_abort .channelsForTeam countFailsEnv demoContext demoRequest
      countErr rfl).2.1
      ⟨Call.PostCountsByDuration demoContext.AppContext ["C1"] 1000 none
        PostCountGrouping.PostsByDay ⟨"UTC"⟩, by decide, rfl⟩,
    ((C10_collaborator_errors_abort .channelsForUser rankFailsEnv demoContext demoRequest
      rankErr rfl).2.2
      ⟨Call.GetTopChannelsForUserSince demoContext.AppContext "user1" "" ⟨1000, 2, 5⟩,
        by decide, rfl⟩).1,
    ((C10_collaborator_errors_abort .channelsForUser rankFailsEnv demoContext demoRequest
      rankErr rfl).2.2
      ⟨Call.GetTopChannelsForUserSince demoContext.AppContext "user1" "" ⟨1000, 2, 5⟩,
        by decide, rfl⟩).2.2.1⟩

/-! ## The order of the checks in the two thread routes -/

/-- On the user-scoped reactions, channels and inactive-channels routes a non-guest request
whose `team_id` is non-empty and not a well-formed identifier fails with the
invalid-parameter error for `team_id`, the guest check being the only call made. -/
theorem team_id_validated_before_any_lookup (ep : Endpoint) (env : Env) (c : Context)
    (r : Request)
    (hep : ep = .reactionsForUser ∨ ep = .channelsForUser ∨ ep = .inactiveChannelsForUser)
    (hguest : env.rejectGuests c = none)
    (hpresent : r.QueryGet "team_id" ≠ "")
    (hbad : env.IsValidId (r.QueryGet "team_id") = false) :
    (handle ep env c r).Err = some (env.SetInvalidURLParam
      { c with Params := { c.Params with TeamId := r.QueryGet "team_id" } } "team_id") ∧
    (handle ep env c r).calls = [Call.rejectGuests c] := by
  rcases hep with h | h | h <;> subst h <;>
    simp [handle, getTopReactionsForUserSince, getTopChannelsForUserSince,
      getTopInactiveChannelsForUserSince, hguest, hpresent, hbad, call, Result.fail]

/-- On the user-scoped threads route the same request makes the user lookup first: it never
reaches the team lookup, and it fails with the invalid-parameter error only when the user
lookup succeeds; otherwise with the error of the user lookup. -/
theorem threads_team_id_validated_after_user_lookup (env : Env) (c : Context) (r : Request)
    (hguest : env.rejectGuests c = none)
    (hpresent : r.QueryGet "team_id" ≠ "")
    (hbad : env.IsValidId (r.QueryGet "team_id") = false) :
    (handle .threadsForUser env c r).calls =
      [Call.rejectGuests c, Call.GetUser c.AppContext.Session.UserId] ∧
    (handle .threadsForUser env c r).invoked Call.isGetTeam = false ∧
    (∀ user, env.GetUser c.AppContext.Session.UserId = .ok user →
      (handle .threadsForUser env c r).Err = some (env.SetInvalidURLParam
        { c with Params := { c.Params with TeamId := r.QueryGet "team_id" } } "team_id")) ∧
    (∀ e, env.GetUser c.AppContext.Session.UserId = .error e →
      (handle .threadsForUser env c r).Err = some e) := by
  cases hu : env.GetUser c.AppContext.Session.UserId <;>
    simp [handle, getTopThreadsForUserSince, hguest, hpresent, hbad, hu, call, Result.fail,
      Result.invoked, Call.isGetTeam]

/-- C3, at the failing input: on the user-scoped threads route, a non-guest request whose
`team_id` is non-empty and not a well-formed identifier, on a deployment where the user
lookup fails, ends with the error of the user lookup and not with the invalid-parameter
error for `team_id`, the user lookup having been made before the parameter was validated;
the user-scoped reactions route answers the same request with the invalid-parameter
error. -/
theorem C3_threads_for_user_looks_user_up_before_validating_team_id :
    noUserEnv.rejectGuests demoContext = none ∧
    badTeamRequest.QueryGet "team_id" ≠ "" ∧
    noUserEnv.IsValidId (badTeamRequest.QueryGet "team_id") = false ∧
    (handle .threadsForUser noUserEnv demoContext badTeamRequest).Err = some userErr ∧
    (handle .threadsForUser noUserEnv demoContext badTeamRequest).Err ≠
      some (invalidParamErr "team_id") ∧
    (handle .threadsForUser noUserEnv demoContext badTeamRequest).invoked Call.isGetUser =
      true ∧
    (handle .reactionsForUser noUserEnv demoContext badTeamRequest).Err =
      some (invalidParamErr "team_id") := by
  decide

/-- On the team-scoped reactions, channels, inactive-channels and new-team-members routes, a
request that passes the license and guest checks and whose team resolves, made by a session
without view permission on the team, fails with the permission error for view-team before
any user lookup, time-range resolution, ranking query or counting query. -/
theorem permission_checked_before_user_lookup (ep : Endpoint) (env : Env) (c : Context)
    (r : Request) (team : Team)
    (hep : ep = .reactionsForTeam ∨ ep = .channelsForTeam ∨ ep = .inactiveChannelsForTeam ∨
      ep = .teamMembersForTeam)
    (hlicense : env.minimumProfessionalLicense c = none)
    (hguest : env.rejectGuests c = none)
    (hrequire : env.RequireTeamId c = none)
    (hteam : env.GetTeam c.Params.TeamId = .ok team)
    (hperm : env.SessionHasPermissionToTeam c.AppContext.Session team.Id PermissionViewTeam =
      false) :
    (handle ep env c r).Err = some (env.SetPermissionError c PermissionViewTeam) ∧
    (handle ep env c r).invoked Call.isGetUser = false ∧
    (handle ep env c r).invoked Call.isTimeRangeResolution = false ∧
    (handle ep env c r).invoked Call.isRankingQuery = false ∧
    (handle ep env c r).invoked Call.isCountingQuery = false := by
  rcases hep with h | h | h | h <;> subst h <;>
    simp [handle, getTopReactionsForTeamSince, getTopChannelsForTeamSince,
      getTopInactiveChannelsForTeamSince, getNewTeamMembersSince, hlicense, hguest,
      hrequire, hteam, hperm, call, Result.fail, Result.invoked, Call.isGetUser,
      Call.isTimeRangeResolution, Call.isRankingQuery, Call.rankingOpts,
      Call.isCountingQuery]

/-- On the team-scoped threads route the same request makes the user lookup before the
permission check: the lookup is in the log, and the request fails with the permission
error only when the lookup succeeds; otherwise with the error of the lookup. -/
theorem threads_permission_checked_after_user_lookup (env : Env) (c : Context)
    (r : Request) (team : Team)
    (hlicense : env.minimumProfessionalLicense c = none)
    (hguest : env.rejectGuests c = none)
    (hrequire : env.RequireTeamId c = none)
    (hteam : env.GetTeam c.Params.TeamId = .ok team)
    (hperm : env.SessionHasPermissionToTeam c.AppContext.Session team.Id PermissionViewTeam =
      false) :
    (handle .threadsForTeam env c r).invoked Call.isGetUser = true ∧
    (handle .threadsForTeam env c r).invoked Call.isTimeRangeResolution = false ∧
    (handle .threadsForTeam env c r).invoked Call.isRankingQuery = false ∧
    (∀ user, env.GetUser c.AppContext.Session.UserId = .ok user →
      (handle .threadsForTeam env c r).Err =
        some (env.SetPermissionError c PermissionViewTeam)) ∧
    (∀ e, env.GetUser c.AppContext.Session.UserId = .error e →
      (handle .threadsForTeam env c r).Err = some e) := by
  cases hu : env.GetUser c.AppContext.Session.UserId <;>
    simp [handle, getTopThreadsForTeamSince, hlicense, hguest, hrequire, hteam, hperm, hu,
      call, Result.fail, Result.invoked, Call.isGetUser, Call.isTimeRangeResolution,
      Call.isRankingQuery, Call.rankingOpts]

/-- C9, at the failing input: on the team-scoped threads route, a request that passes the
license and guest checks and whose team resolves, made by a session without view permission
on the team, is answered with the permission error only after the user lookup has been
made, and with the error of the user lookup when that lookup fails; the team-scoped
reactions route answers both requests with the permission error without looking the user
up. -/
theorem C9_threads_for_team_looks_user_up_before_permission_check :
    noPermissionEnv.minimumProfessionalLicense demoContext = none ∧
    noPermissionEnv.rejectGuests demoContext = none ∧
    noPermissionEnv.GetTeam demoContext.Params.TeamId = .ok ⟨"team1"⟩ ∧
    noPermissionEnv.SessionHasPermissionToTeam demoContext.AppContext.Session "team1"
      PermissionViewTeam = false ∧
    (handle .threadsForTeam noPermissionEnv demoContext demoRequest).Err =
      some (permissionErr PermissionViewTeam) ∧
    (handle .threadsForTeam noPermissionEnv demoContext demoRequest).invoked Call.isGetUser =
      true ∧
    (handle .threadsForTeam noUserNoPermissionEnv demoContext demoRequest).Err =
      some userErr ∧
    (handle .threadsForTeam noUserNoPermissionEnv demoContext demoRequest).Err ≠
      some (permissionErr PermissionViewTeam) ∧
    (handle .reactionsForTeam noUserNoPermissionEnv demoContext demoRequest).Err =
      some (permissionErr PermissionViewTeam) ∧
    (handle .reactionsForTeam noUserNoPermissionEnv demoContext demoRequest).invoked
      Call.isGetUser = false :=
  ⟨rfl, rfl, rfl, rfl, by decide, by decide, by decide, by decide, by decide, by decide⟩


end Insights
